import Mathlib

/-!
Shallow embedding of `scripts/auto_setup_orchs.py` (repo auto-setup pipeline).

Strings are modelled as Lean `String` / `List Char`; Python string helpers
(strip, rstrip, split, regex substitution) are modelled explicitly below.
External effects (subprocess exit codes and outputs, filesystem marker files,
GitHub API responses) are modelled as explicit environment records passed to
the embedded functions, which mirror the source's control flow exactly.
-/

set_option maxRecDepth 100000

namespace AutoSetup

/-! Generic list helpers used by the proofs. -/

/-! Helper lemmas about the character classes and string helpers, used to
settle the name-derivation claim. -/

/-! Helpers for settling the owner/repo-extraction claim. -/

/-- Python whitespace characters, as relevant to `str.strip()` and `\s`
for the ASCII inputs this tool handles. -/
def isPyWsChar (c : Char) : Bool :=
  c = ' ' || c = '\t' || c = '\n' || c = '\r' || c = '\x0b' || c = '\x0c'

/-- Characters admitted by the character class `[A-Za-z0-9._-]` of
`_parse_repo_name`'s substitution regex. -/
def isSafeChar (c : Char) : Bool :=
  (('A' ≤ c && c ≤ 'Z') || ('a' ≤ c && c ≤ 'z') || ('0' ≤ c && c ≤ '9')
    || c = '.' || c = '_' || c = '-')

/-- Python `str.strip()` (both ends) on a character list. -/
def pyStripList (l : List Char) : List Char :=
  ((l.dropWhile isPyWsChar).reverse.dropWhile isPyWsChar).reverse

/-- Python `str.rstrip("/")` on a character list. -/
def rstripSlash (l : List Char) : List Char :=
  (l.reverse.dropWhile (fun c => c = '/')).reverse

/-- Python `str.strip(ch)` (both ends) on a character list. -/
def stripChar (ch : Char) (l : List Char) : List Char :=
  ((l.dropWhile (fun c => c = ch)).reverse.dropWhile (fun c => c = ch)).reverse

/-- Python `str.split(sep)` for a one-character separator: always returns a
non-empty list of (possibly empty) segments. -/
def splitOnChar (sep : Char) : List Char → List (List Char)
  | [] => [[]]
  | c :: cs =>
    match splitOnChar sep cs with
    | [] => [[]]
    | h :: t => if c = sep then [] :: h :: t else (c :: h) :: t

/-- Python `re.sub(r"[^A-Za-z0-9._-]+", "_", s)`: each maximal run of
characters outside the safe class is folded to a single underscore.  The
Boolean argument records whether the previous character was part of such a
run (so the run produces only one underscore). -/
def subChars : List Char → Bool → List Char
  | [], _ => []
  | c :: cs, prevUnsafe =>
    if isSafeChar c then c :: subChars cs false
    else if prevUnsafe then subChars cs true
    else '_' :: subChars cs true

/-- Python `s.endswith(".git")` / `s[: -len(".git")]` combination used in the
source: strip one trailing `.git` if present. -/
def stripGitSuffix (l : List Char) : List Char :=
  if (".git".data).isSuffixOf l then l.take (l.length - 4) else l

/-- Python `s[-n:]`: the final `n` characters (the whole string when shorter),
used by the source to truncate captured command output. -/
def pyTailList (n : Nat) (l : List Char) : List Char :=
  l.drop (l.length - n)

/-- String wrapper for `pyTailList`. -/
def pyTail (n : Nat) (s : String) : String := ⟨pyTailList n s.data⟩

/-- Python `a or b` on strings: `b` when `a` is empty, else `a`. -/
def pyOrStr (a b : String) : String := if a = "" then b else a

/-- Embedding of `_parse_repo_name` (list level): strip whitespace, strip
trailing slashes, take the last `/`-separated segment, strip a trailing
`.git`, fold unsafe characters to `_`, default to `"repo"` when empty. -/
def parse_repo_name_list (url : List Char) : List Char :=
  let cleaned := rstripSlash (pyStripList url)
  let name := (splitOnChar '/' cleaned).getLastD []
  let name := stripGitSuffix name
  let name := subChars name false
  if name = [] then "repo".data else name

/-- Embedding of `_parse_repo_name`. -/
def parse_repo_name (url : String) : String := ⟨parse_repo_name_list url.data⟩

/-- Result of `urllib.parse.urlparse` restricted to the three components the
source consults. -/
structure UrlParts where
  scheme : List Char
  netloc : List Char
  path : List Char
deriving DecidableEq

/-- CPython accepts a scheme iff it is non-empty, starts with a letter and
continues with letters, digits or `+`, `-`, `.`. -/
def validSchemeName : List Char → Bool
  | [] => false
  | c :: cs =>
    c.isAlpha && cs.all (fun d => d.isAlphanum || d = '+' || d = '-' || d = '.')

/-- Embedding of the scheme/netloc/path part of CPython's `urlsplit`:
remove unsafe bytes, split a valid scheme at the first `:` (lowercasing it),
read the netloc after `//` up to the first `/`, `?` or `#`, then cut the
fragment and the query off the remainder to obtain the path. -/
def pyUrlsplit (url0 : List Char) : UrlParts :=
  let url := url0.filter (fun c => !(c = '\t' || c = '\r' || c = '\n'))
  let pre := url.takeWhile (fun c => !(c = ':'))
  let scheme :=
    if pre.length < url.length && validSchemeName pre then pre.map Char.toLower
    else []
  let rest :=
    if pre.length < url.length && validSchemeName pre then url.drop (pre.length + 1)
    else url
  let netloc :=
    if rest.take 2 = ['/', '/'] then
      (rest.drop 2).takeWhile (fun c => !(c = '/' || c = '?' || c = '#'))
    else []
  let rest2 :=
    if rest.take 2 = ['/', '/'] then
      (rest.drop 2).dropWhile (fun c => !(c = '/' || c = '?' || c = '#'))
    else rest
  let afterFrag := rest2.takeWhile (fun c => !(c = '#'))
  let path := afterFrag.takeWhile (fun c => !(c = '?'))
  { scheme := scheme, netloc := netloc, path := path }

/-- CPython's `uses_params` scheme list, consulted by `urlparse` before
splitting parameters off the path. -/
def usesParams : List (List Char) :=
  ["".data, "ftp".data, "hdl".data, "prospero".data, "http".data, "imap".data,
   "https".data, "shttp".data, "rtsp".data, "rtspu".data, "sip".data,
   "sips".data, "mms".data, "sftp".data, "tel".data]

/-- CPython's `_splitparams`, path component only (called when the path
contains `;`): when the path contains `/`, cut at the first `;` at or after
the last `/` (no such `;` leaves the path unchanged); otherwise cut at the
first `;`. -/
def splitParams (path : List Char) : List Char :=
  if path.contains '/' then
    let lastSeg := (path.reverse.takeWhile (fun c => !(c = '/'))).reverse
    if lastSeg.contains ';' then
      (path.reverse.dropWhile (fun c => !(c = '/'))).reverse
        ++ lastSeg.takeWhile (fun c => !(c = ';'))
    else path
  else path.takeWhile (fun c => !(c = ';'))

/-- Embedding of CPython's `urlparse` on top of `urlsplit` (the function the
source actually calls): when the scheme is in `uses_params` and the path
contains `;`, the parameters are split off the path's last segment. -/
def pyUrlparse (url0 : List Char) : UrlParts :=
  let u := pyUrlsplit url0
  if usesParams.contains u.scheme && u.path.contains ';' then
    { scheme := u.scheme, netloc := u.netloc, path := splitParams u.path }
  else u

/-- Embedding of `_parse_github_owner_repo`: strip the URL, parse it with
`urlparse`, require an `http`/`https` scheme and the (lowercased) host
`github.com`, take the non-empty path segments, require at least two, and
strip a trailing `.git` from the second. -/
def parse_github_owner_repo (url : String) : Option (String × String) :=
  let u := pyUrlparse (pyStripList url.data)
  if !(u.scheme = "http".data || u.scheme = "https".data) then none
  else if !(u.netloc.map Char.toLower = "github.com".data) then none
  else
    match (splitOnChar '/' (stripChar '/' u.path)).filter (fun p => !(p = [])) with
    | owner :: repo :: _ => some (⟨owner⟩, ⟨stripGitSuffix repo⟩)
    | _ => none

/-- Modelled from the spec's words (for comparison with the source function):
a URL "of the `https://github.com/<owner>/<repo>` shape" is exactly the
literal prefix `https://github.com/` followed by two non-empty
slash-free segments. -/
def isHttpsGithubShape (url : String) : Bool :=
  let pre := "https://github.com/".data
  if pre.isPrefixOf url.data then
    match splitOnChar '/' (url.data.drop pre.length) with
    | [o, r] => !(o = []) && !(r = [])
    | _ => false
  else false

/-- String wrapper for Python `str.strip()`. -/
def pyStrip (s : String) : String := ⟨pyStripList s.data⟩

/-- Python `str.lower()` for the ASCII strings this tool compares. -/
def pyLower (s : String) : String := ⟨s.data.map Char.toLower⟩

/-- The fields of the latest workflow-run JSON object that the gate consults;
`""` models an absent or null JSON field (the source's `or ""` default). -/
structure RunInfo where
  conclusion : String
  status : String
  htmlUrl : String
deriving DecidableEq

/-- Abstract GitHub API responses for one repository: the HTTP status of the
workflow-existence call (0 models a raised network error), the HTTP status of
the runs call, the associated error strings, and the decoded
`workflow_runs` list. -/
structure GitHubApiEnv where
  wfStatus : Nat
  wfError : String
  runsStatus : Nat
  runsError : String
  runs : List RunInfo
deriving DecidableEq

/-- Embedding of `_github_ci_gate`: returns `(passed, note, workflow_exists)`
from the two API responses, mirroring the source's status checks in order. -/
def github_ci_gate (api : GitHubApiEnv) (workflow branch : String) :
    Bool × String × Bool :=
  if api.wfStatus = 404 then
    (false, "CI gate: workflow '" ++ workflow ++ "' not found", false)
  else if api.wfStatus = 0 then
    (false, "CI gate: GitHub API request failed (" ++ api.wfError ++ ")", true)
  else if api.wfStatus ≥ 400 then
    (false, "CI gate: GitHub API error (" ++ toString api.wfStatus ++ ")", true)
  else if api.runsStatus = 0 then
    (false, "CI gate: GitHub API request failed (" ++ api.runsError ++ ")", true)
  else if api.runsStatus ≥ 400 then
    (false, "CI gate: cannot read workflow runs (" ++ toString api.runsStatus ++ ")", true)
  else
    match api.runs with
    | [] =>
      (false, "CI gate: no runs found for '" ++ workflow ++ "' on branch '" ++ branch ++ "'", true)
    | latest :: _ =>
      let conclusion := pyLower latest.conclusion
      let runStatus := pyLower latest.status
      if !(runStatus = "completed") then
        (false, pyStrip ("CI gate: latest run not completed (status=" ++ runStatus ++ ") " ++ latest.htmlUrl), true)
      else if !(conclusion = "success") then
        (false, pyStrip ("CI gate: latest run did not succeed (conclusion=" ++ conclusion ++ ") " ++ latest.htmlUrl), true)
      else
        (true, pyStrip ("CI gate: latest run success " ++ latest.htmlUrl), true)

/-- The claim's notion of "latest run is a completed success", evaluated on
the decoded runs list. -/
def latestRunSuccess : List RunInfo → Bool
  | [] => false
  | latest :: _ =>
    pyLower latest.status = "completed" && pyLower latest.conclusion = "success"

/-- Marker files present in a cloned repository's root, plus the outcome of
the bounded `_looks_like_python_repo` directory walk (abstracted as an
oracle of the directory contents). -/
structure RepoDirEnv where
  hasCargoToml : Bool
  hasPyprojectToml : Bool
  hasRequirementsTxt : Bool
  hasSetupPy : Bool
  hasPackageJson : Bool
  hasDockerfile : Bool
  looksLikePython : Bool
deriving DecidableEq

/-- Embedding of `_detect_repo_type`: fixed priority chain of marker checks,
then the shallow Python-walk fallback, then `"Unknown"`. -/
def detect_repo_type (d : RepoDirEnv) : String :=
  if d.hasCargoToml then "Rust"
  else if d.hasPyprojectToml || d.hasRequirementsTxt || d.hasSetupPy then "Python"
  else if d.hasPackageJson then "Node.js"
  else if d.hasDockerfile then "Docker"
  else if d.looksLikePython then "Python"
  else "Unknown"

/-- Case-insensitive literal match: returns the remainder of `l` after the
pattern `p`, or `none` when `l` does not start with `p` (up to ASCII case). -/
def dropLitCI : List Char → List Char → Option (List Char)
  | [], l => some l
  | _, [] => none
  | p :: ps, c :: cs => if c.toLower = p.toLower then dropLitCI ps cs else none

/-- One line matches the regex `^\s*numpy\s*==\s*1\.23\.[0-9]+\s*$` with
flags `(?im)`: optional whitespace, `numpy` (any case), `==`, `1.23.`,
one or more digits, optional trailing whitespace. -/
def matchNumpyPin (line : List Char) : Bool :=
  let l := line.dropWhile isPyWsChar
  match dropLitCI "numpy".data l with
  | none => false
  | some l =>
    let l := l.dropWhile isPyWsChar
    match dropLitCI "==".data l with
    | none => false
    | some l =>
      let l := l.dropWhile isPyWsChar
      match dropLitCI "1.23.".data l with
      | none => false
      | some l =>
        let digits := l.takeWhile Char.isDigit
        let rest := l.dropWhile Char.isDigit
        !(digits = []) && rest.all isPyWsChar

/-- Python tuple comparison `(maj, minor) >= (3, 12)`. -/
def pyVerGe312 (v : Nat × Nat) : Bool :=
  v.1 > 3 || (v.1 = 3 && v.2 ≥ 12)

/-- The actionable message built by `_preflight_requirements_compat`. -/
def compatMessage (v : Nat × Nat) : String :=
  "requirements.txt pins numpy==1.23.* which does not support this Python version (" ++
    toString v.1 ++ "." ++ toString v.2 ++
    "). Install Python 3.10/3.11 (recommended) or update the pin to a Python-" ++
    toString v.1 ++ "." ++ toString v.2 ++ "-compatible numpy."

/-- Embedding of `_preflight_requirements_compat`: when a requirements file
exists, the interpreter is at least 3.12 and some line pins `numpy==1.23.*`,
return the actionable message; otherwise return nothing. -/
def preflight_requirements_compat (hasReq : Bool) (txt : String) (v : Nat × Nat) :
    Option String :=
  if !hasReq then none
  else if pyVerGe312 v && (splitOnChar '\n' txt.data).any matchNumpyPin then
    some (compatMessage v)
  else none

/-- Outcome of one build step: success flag, commands attempted, error
excerpt, suggested entry point, integration notes — the quintuple every
`_*_build` helper returns. -/
abbrev BuildOutcome := Bool × List String × Option String × Option String × List String

/-- The fixed integration notes of `_python_build`. -/
def pythonNotes : List String :=
  ["Spawn via tokio::process::Command and communicate over stdin/stdout (or HTTP if the repo exposes it).",
   "Prefer invoking the repo using the per-ORCH venv Python to avoid dependency collisions."]

/-- Abstract external world of `_python_build` for one repository: which tools
and descriptor files exist, the venv interpreter path and version, and the
exit code / combined output of each subprocess the function may run. -/
structure PyBuildEnv where
  pythonAvailable : Bool
  venvOk : Bool
  venvErr : String
  vpy : String
  pyVer : Nat × Nat
  pipUpgradeExit : Int
  pipUpgradeOut : String
  hasRequirements : Bool
  requirementsTxt : String
  reqInstallExit : Int
  reqInstallOut : String
  hasPoetryLock : Bool
  poetryOnPath : Bool
  poetryExit : Int
  poetryOut : String
  hasPipfile : Bool
  pipenvOnPath : Bool
  pipenvExit : Int
  pipenvOut : String
  hasPyproject : Bool
  hasSetupPy : Bool
  editableExit : Int
  editableOut : String
  plainExit : Int
  plainOut : String
  guessedEntry : Option String
deriving DecidableEq

/-- Embedding of `_python_build`: venv creation, pip tooling upgrade, then
dependency installation through whichever descriptor is present
(requirements.txt with the pre-flight compatibility check, poetry, pipenv,
pyproject/setup.py with a non-editable fallback), mirroring the source's
branch order and return values. -/
def python_build (e : PyBuildEnv) : BuildOutcome :=
  if !e.pythonAvailable then
    (false, [], some "Python not found on PATH", none, pythonNotes)
  else if !e.venvOk then
    (false, [], some ("venv creation failed: " ++ e.venvErr), none, pythonNotes)
  else
    let cmds := [e.vpy ++ " -m pip install -U pip setuptools wheel"]
    if !(e.pipUpgradeExit = 0) then
      (false, cmds, some (pyTail 4000 e.pipUpgradeOut), none, pythonNotes)
    else if e.hasRequirements then
      match preflight_requirements_compat e.hasRequirements e.requirementsTxt e.pyVer with
      | some msg =>
        (false, cmds, some msg, e.guessedEntry, pythonNotes ++ ["Compatibility: " ++ msg])
      | none =>
        let cmds := cmds ++ [e.vpy ++ " -m pip install -r requirements.txt"]
        if !(e.reqInstallExit = 0) then
          (false, cmds, some (pyTail 4000 e.reqInstallOut), none, pythonNotes)
        else
          (true, cmds, none, e.guessedEntry, pythonNotes)
    else if e.hasPoetryLock && e.poetryOnPath then
      let cmds := cmds ++ ["poetry install"]
      if !(e.poetryExit = 0) then
        (false, cmds, some (pyTail 4000 e.poetryOut), none, pythonNotes)
      else
        (true, cmds, none, e.guessedEntry,
         pythonNotes ++ ["Poetry-managed environment detected; ensure Phoenix spawns with the correct interpreter (poetry env info -p)."])
    else if e.hasPipfile && e.pipenvOnPath then
      let cmds := cmds ++ ["pipenv install"]
      if !(e.pipenvExit = 0) then
        (false, cmds, some (pyTail 4000 e.pipenvOut), none, pythonNotes)
      else
        (true, cmds, none, e.guessedEntry,
         pythonNotes ++ ["Pipenv-managed environment detected; ensure Phoenix spawns with `pipenv run python ...`."])
    else if e.hasPyproject || e.hasSetupPy then
      let cmds := cmds ++ [e.vpy ++ " -m pip install -e ."]
      if !(e.editableExit = 0) then
        let cmds := cmds ++ [e.vpy ++ " -m pip install ."]
        if !(e.plainExit = 0) then
          (false, cmds, some (pyTail 4000 (pyOrStr e.plainOut e.editableOut)), none, pythonNotes)
        else
          (true, cmds, none, e.guessedEntry, pythonNotes)
      else
        (true, cmds, none, e.guessedEntry, pythonNotes)
    else
      (true, cmds, none, e.guessedEntry, pythonNotes)

/-- The fixed integration notes of `_node_build`. -/
def nodeNotes : List String :=
  ["Spawn via tokio::process::Command (node) or run as a long-lived service and bridge via HTTP/WebSocket.",
   "Prefer `npm start` / `npm run <script>` based on package.json scripts."]

/-- Embedding of `_node_build`: require npm on PATH, run `npm install` once. -/
def node_build (npmOnPath : Bool) (npmExit : Int) (npmOut : String) : BuildOutcome :=
  if !npmOnPath then (false, [], some "npm not found on PATH", none, nodeNotes)
  else if !(npmExit = 0) then
    (false, ["npm install"], some (pyTail 4000 npmOut), none, nodeNotes)
  else (true, ["npm install"], none, some "package.json", nodeNotes)

/-- The fixed integration notes of `_rust_build`. -/
def rustNotes : List String :=
  ["If a .wasm is produced, register it as a WASM ORCH and run via Wasmtime/Wasmer (recommended sandbox).",
   "If only a native binary is produced, spawn it as a subprocess ORCH and bridge over stdio/IPC."]

/-- Abstract external world of `_rust_build`: cargo availability, the exit
code / output of the preferred `cargo component build --release` and of the
fallback `cargo build --release`, and the entry-point guess. -/
structure RustBuildEnv where
  cargoOnPath : Bool
  componentExit : Int
  componentOut : String
  buildExit : Int
  buildOut : String
  guessedEntry : Option String
deriving DecidableEq

/-- Embedding of `_rust_build`: try the component build, fall back to the
plain build; when both fail the diagnostic is `(out2 or out)[-4000:]`, i.e.
the fallback's output unless that output is empty. -/
def rust_build (e : RustBuildEnv) : BuildOutcome :=
  if !e.cargoOnPath then (false, [], some "cargo not found on PATH", none, rustNotes)
  else
    let cmds := ["cargo component build --release"]
    if e.componentExit = 0 then (true, cmds, none, e.guessedEntry, rustNotes)
    else
      let cmds := cmds ++ ["cargo build --release"]
      if !(e.buildExit = 0) then
        (false, cmds, some (pyTail 4000 (pyOrStr e.buildOut e.componentOut)), none, rustNotes)
      else (true, cmds, none, e.guessedEntry, rustNotes)

/-- Embedding of `_docker_build`: detection only, always succeeds. -/
def docker_build : BuildOutcome :=
  (true, [], none, some "Dockerfile",
   ["Dockerfile detected. Consider containerizing as an external ORCH and bridging via HTTP."])

/-- Abstract external world of `_build_repo`: the per-ecosystem environments. -/
structure BuildEnv where
  py : PyBuildEnv
  rust : RustBuildEnv
  npmOnPath : Bool
  npmExit : Int
  npmOut : String
deriving DecidableEq

/-- Embedding of `_build_repo`: dispatch on the detected tag. -/
def build_repo (detected : String) (e : BuildEnv) : BuildOutcome :=
  if detected = "Rust" then rust_build e.rust
  else if detected = "Python" then python_build e.py
  else if detected = "Node.js" then node_build e.npmOnPath e.npmExit e.npmOut
  else if detected = "Docker" then docker_build
  else (true, [], none, none, ["Unknown repo type; no build executed."])

/-- The literal clone command line `_git_clone_or_update` records. -/
def cloneCmd (shallow : Bool) (url dest : String) : String :=
  "git clone " ++ (if shallow then "--depth 1 " else "") ++ url ++ " " ++ dest

/-- Embedding of `_git_clone_or_update`: `(ok, commands, error)`.  With git
missing, fail with no commands; with an existing checkout, run only
`git pull --ff-only`; otherwise run one fresh clone (shallow when asked). -/
def git_clone_or_update (gitOnPath hasCheckout shallow : Bool) (url dest : String)
    (pullExit : Int) (pullOut : String) (cloneExit : Int) (cloneOut : String) :
    Bool × List String × Option String :=
  if !gitOnPath then (false, [], some "git not found on PATH")
  else if hasCheckout then
    if !(pullExit = 0) then
      (false, ["git pull --ff-only"], some (pyTail 4000 pullOut))
    else (true, ["git pull --ff-only"], none)
  else
    let cmd := cloneCmd shallow url dest
    if !(cloneExit = 0) then (false, [cmd], some (pyTail 4000 cloneOut))
    else (true, [cmd], none)

/-- Python `sub in s` on strings: `sub` occurs contiguously in `hay`
(an empty `sub` always occurs). -/
def isSubOf (sub : List Char) : List Char → Bool
  | [] => sub.isPrefixOf []
  | c :: cs => sub.isPrefixOf (c :: cs) || isSubOf sub cs

/-- Embedding of the `RepoResult` dataclass (the Repository Outcome Record);
the destination directory is carried as its path string. -/
structure RepoResult where
  name : String
  url : String
  dest : String
  detected : String
  build_commands : List String
  status : String
  error : Option String
  entrypoint : Option String
  integration_notes : List String
deriving DecidableEq

/-- Command-line configuration of `main` (after argparse), plus the resolved
orchestration directory path. -/
structure Config where
  noBuild : Bool
  shallow : Bool
  ciGate : String
  ciWorkflow : String
  ciBranch : String
  skip : List String
  orchDir : String
deriving DecidableEq

/-- Abstract external world for processing one URL: the GitHub API responses,
git availability and command outcomes, the cloned directory's marker files,
and the build-step environment. -/
structure UrlEnv where
  api : GitHubApiEnv
  gitOnPath : Bool
  pullExit : Int
  pullOut : String
  cloneExit : Int
  cloneOut : String
  dir : RepoDirEnv
  build : BuildEnv
deriving DecidableEq

/-- The filesystem state threaded through a run: which destination paths
already contain a `.git` checkout. -/
structure FsState where
  checkouts : List String
deriving DecidableEq

/-- The CI-gate decision made in `main`'s loop body: whether the URL is
rejected before cloning, the gate note used as the record's error, and the
accumulated `ci_notes`. -/
structure GateDecision where
  rejected : Bool
  note : Option String
  ciNotes : List String
deriving DecidableEq

/-- Embedding of the CI-gate section of `main`'s loop body (`--ci-gate`
handling): not consulted when `off`; noted and skipped for non-GitHub URLs;
otherwise the gate result is enforced per `require`/`auto` policy. -/
def gate_decision (cfg : Config) (api : GitHubApiEnv) (url : String) : GateDecision :=
  if cfg.ciGate = "off" then { rejected := false, note := none, ciNotes := [] }
  else
    match parse_github_owner_repo url with
    | none =>
      { rejected := false, note := none, ciNotes := ["CI gate: skipped (non-GitHub URL)"] }
    | some _ =>
      let out := github_ci_gate api cfg.ciWorkflow cfg.ciBranch
      let passed := out.1
      let note := out.2.1
      let exists2 := out.2.2
      let rejected :=
        (cfg.ciGate = "require" && (!exists2 || !passed)) ||
        (cfg.ciGate = "auto" && (exists2 && !passed))
      { rejected := rejected, note := some note, ciNotes := [note] }

/-- Embedding of the clone/detect/build part of `main`'s loop body, entered
once the skip filter and the CI gate have let the URL through. -/
def process_url_clone (cfg : Config) (st : FsState) (url : String) (env : UrlEnv)
    (name dest : String) (ciNotes : List String) : RepoResult × FsState :=
  let hasCheckout := st.checkouts.contains dest
  let cl := git_clone_or_update env.gitOnPath hasCheckout cfg.shallow url dest
    env.pullExit env.pullOut env.cloneExit env.cloneOut
  let ok := cl.1
  let cloneCmds := cl.2.1
  let cloneErr := cl.2.2
  let st2 := if !hasCheckout && ok then { checkouts := dest :: st.checkouts } else st
  if !ok then
    ({ name := name, url := url, dest := dest, detected := "Unknown",
       build_commands := cloneCmds, status := "Failure", error := cloneErr,
       entrypoint := none,
       integration_notes := ciNotes ++ ["Clone failed; build not attempted."] }, st2)
  else
    let detected := detect_repo_type env.dir
    if cfg.noBuild then
      ({ name := name, url := url, dest := dest, detected := detected,
         build_commands := cloneCmds, status := "Skipped", error := none,
         entrypoint := none,
         integration_notes := ciNotes ++ ["Build skipped due to --no-build."] }, st2)
    else
      let b := build_repo detected env.build
      let ok2 := b.1
      let cmds2 := b.2.1
      let err2 := b.2.2.1
      let entry2 := b.2.2.2.1
      let notes2 := b.2.2.2.2
      ({ name := name, url := url, dest := dest, detected := detected,
         build_commands := cloneCmds ++ cmds2,
         status := if ok2 then "Success" else "Failure",
         error := if ok2 then none else err2,
         entrypoint := entry2,
         integration_notes := ciNotes ++ notes2 }, st2)

/-- Embedding of one iteration of `main`'s URL loop: skip filter, CI gate,
clone/update, type detection, build dispatch; returns the outcome record and
the updated filesystem state (a successful fresh clone creates a checkout). -/
def process_url (cfg : Config) (st : FsState) (url : String) (env : UrlEnv) :
    RepoResult × FsState :=
  let name := parse_repo_name url
  let dest := cfg.orchDir ++ "/" ++ name
  if cfg.skip.any (fun s => isSubOf s.data url.data) then
    ({ name := name, url := url, dest := dest, detected := "Skipped",
       build_commands := [], status := "Skipped", error := none,
       entrypoint := none, integration_notes := ["Skipped by --skip filter."] }, st)
  else
    let gd := gate_decision cfg env.api url
    if gd.rejected then
      ({ name := name, url := url, dest := dest, detected := "CI Gate",
         build_commands := [], status := "Failure", error := gd.note,
         entrypoint := none, integration_notes := gd.ciNotes }, st)
    else
      process_url_clone cfg st url env name dest gd.ciNotes

/-- Sequential processing of the URL list, threading the filesystem state. -/
def process_urls (cfg : Config) : FsState → List (String × UrlEnv) → List RepoResult
  | _, [] => []
  | st, (url, env) :: rest =>
    let pr := process_url cfg st url env
    pr.1 :: process_urls cfg pr.2 rest

/-- Embedding of `main` after project-root resolution: filter out blank URLs,
exit 2 when none remain, otherwise process all URLs and exit 1 exactly when
some outcome record failed. -/
def main_run (cfg : Config) (st0 : FsState) (inputs : List (String × UrlEnv)) :
    List RepoResult × Int :=
  match inputs.filter (fun p => !((pyStripList p.1.data) = [])) with
  | [] => ([], 2)
  | u :: rest =>
    let results := process_urls cfg st0 (u :: rest)
    (results, if results.any (fun r => r.status = "Failure") then 1 else 0)

/-- Witness data shared by several concrete evaluations: an environment in
which every external step succeeds and no marker file is present. -/
def apiQuiet : GitHubApiEnv :=
  { wfStatus := 200, wfError := "", runsStatus := 200, runsError := "", runs := [] }

def dirEmpty : RepoDirEnv :=
  { hasCargoToml := false, hasPyprojectToml := false, hasRequirementsTxt := false,
    hasSetupPy := false, hasPackageJson := false, hasDockerfile := false,
    looksLikePython := false }

def pyEnvOk : PyBuildEnv :=
  { pythonAvailable := true, venvOk := true, venvErr := "", vpy := "vpy",
    pyVer := (3, 11), pipUpgradeExit := 0, pipUpgradeOut := "",
    hasRequirements := false, requirementsTxt := "", reqInstallExit := 0,
    reqInstallOut := "", hasPoetryLock := false, poetryOnPath := false,
    poetryExit := 0, poetryOut := "", hasPipfile := false, pipenvOnPath := false,
    pipenvExit := 0, pipenvOut := "", hasPyproject := false, hasSetupPy := false,
    editableExit := 0, editableOut := "", plainExit := 0, plainOut := "",
    guessedEntry := none }

def rustEnvOk : RustBuildEnv :=
  { cargoOnPath := true, componentExit := 0, componentOut := "",
    buildExit := 0, buildOut := "", guessedEntry := none }

def buildEnvOk : BuildEnv :=
  { py := pyEnvOk, rust := rustEnvOk, npmOnPath := true, npmExit := 0, npmOut := "" }

def urlEnvOk : UrlEnv :=
  { api := apiQuiet, gitOnPath := true, pullExit := 0, pullOut := "",
    cloneExit := 0, cloneOut := "", dir := dirEmpty, build := buildEnvOk }

def cfgOff : Config :=
  { noBuild := false, shallow := false, ciGate := "off", ciWorkflow := "ci-tests.yml",
    ciBranch := "main", skip := [], orchDir := "../orch_repos" }

/-- C8 counterexample: both cargo commands fail, the fallback's combined
output is empty, and the recorded diagnostic is the preferred command's
error text rather than the tail of the fallback output. -/
def rustEnvCex : RustBuildEnv :=
  { cargoOnPath := true, componentExit := 1, componentOut := "error: preferred build failed",
    buildExit := 1, buildOut := "", guessedEntry := none }

def rustEnvW : RustBuildEnv :=
  { cargoOnPath := true, componentExit := 1, componentOut := "first error",
    buildExit := 1, buildOut := "second error", guessedEntry := none }

def cfgSkip : Config :=
  { noBuild := false, shallow := false, ciGate := "auto", ciWorkflow := "ci-tests.yml",
    ciBranch := "main", skip := ["acme"], orchDir := "../orch_repos" }

def pyEnvPinned : PyBuildEnv :=
  { pyEnvOk with
    hasRequirements := true
    requirementsTxt := "requests\nnumpy==1.23.4\n"
    pyVer := (3, 12) }

def cfgAuto : Config :=
  { noBuild := false, shallow := false, ciGate := "auto", ciWorkflow := "ci-tests.yml",
    ciBranch := "main", skip := [], orchDir := "../orch_repos" }

def urlEnvFailingRun : UrlEnv :=
  { urlEnvOk with
    api := { wfStatus := 200, wfError := "", runsStatus := 200, runsError := "",
             runs := [{ conclusion := "failure", status := "completed", htmlUrl := "" }] } }

/-- Characters that play a structural role in `urlparse`'s handling of the
URLs at issue: path/segment delimiters, the scheme separator, the
parameter separator, and whitespace (stripped or removed before parsing). -/
def urlSpecialChar (c : Char) : Bool :=
  c = '/' || c = '?' || c = '#' || c = ':' || c = ';' || isPyWsChar c

/-- A well-formed owner or repository path segment: non-empty and free of
URL-structural characters. -/
def validSeg (s : String) : Prop :=
  s.data ≠ [] ∧ s.data.all (fun c => !urlSpecialChar c) = true

/-- The well-formed GitHub URL of the claim, built from its two segments
(the repo segment may carry a trailing `.git`). -/
def mkGithubUrl (o r : String) : String :=
  "https://github.com/" ++ o ++ "/" ++ r

example : parse_repo_name "https://github.com/acme/widget.git" = "widget" := by decide

example : parse_repo_name "widget.git.git" = "widget.git" := by decide

example : parse_repo_name "widget.git" = "widget" := by decide

example : parse_repo_name "" = "repo" := by decide

example : parse_repo_name "a b?c" = "a_b_c" := by decide

example : parse_github_owner_repo "https://github.com/acme/widget.git" = some ("acme", "widget") := by decide

example : parse_github_owner_repo "https://github.com/acme/widget" = some ("acme", "widget") := by decide

example : parse_github_owner_repo "http://github.com/a/b" = some ("a", "b") := by decide

example : parse_github_owner_repo "https://github.com/a/b/c" = some ("a", "b") := by decide

example : parse_github_owner_repo "https://gitlab.com/a/b" = none := by decide

example : parse_github_owner_repo "https://github.com/onlyowner" = none := by decide

example : parse_github_owner_repo "not a url" = none := by decide

example : parse_github_owner_repo "https://github.com/a/b;x" = some ("a", "b") := by decide

example : parse_github_owner_repo "https://github.com/a/;x" = none := by decide

example : parse_github_owner_repo "https://github.com/a;x/b" = some ("a;x", "b") := by decide

example : isHttpsGithubShape "http://github.com/a/b" = false := by decide

example : isHttpsGithubShape "https://github.com/a/b" = true := by decide

example : isHttpsGithubShape "https://github.com/a/b/c" = false := by decide

example : preflight_requirements_compat true "requests\nnumpy==1.23.4\n" (3, 12)
    = some (compatMessage (3, 12)) := by decide

example : preflight_requirements_compat true "requests\nnumpy==1.23.4\n" (3, 11) = none := by decide

example : preflight_requirements_compat true "numpy==1.24.0\n" (3, 12) = none := by decide

example : preflight_requirements_compat true "  NumPy == 1.23.5  \r\n" (4, 0)
    = some (compatMessage (4, 0)) := by decide

example : preflight_requirements_compat false "numpy==1.23.4" (3, 12) = none := by decide

theorem takeWhile_append_of_all {α : Type} {p : α → Bool} (xs ys : List α)
    (h : xs.all p = true) : (xs ++ ys).takeWhile p = xs ++ ys.takeWhile p := by
  induction xs with
  | nil => simp
  | cons a l ih =>
    simp only [List.all_cons, Bool.and_eq_true] at h
    simp [List.takeWhile_cons, h.1, ih h.2]

theorem dropWhile_append_of_all {α : Type} {p : α → Bool} (xs ys : List α)
    (h : xs.all p = true) : (xs ++ ys).dropWhile p = ys.dropWhile p := by
  induction xs with
  | nil => simp
  | cons a l ih =>
    simp only [List.all_cons, Bool.and_eq_true] at h
    simp [List.dropWhile_cons, h.1, ih h.2]

theorem takeWhile_eq_self_of_all {α : Type} {p : α → Bool} (l : List α)
    (h : l.all p = true) : l.takeWhile p = l := by
  rw [List.takeWhile_eq_self_iff]
  exact fun x hx => (List.all_eq_true.mp h) x hx

theorem dropWhile_eq_self_of_all {α : Type} {p : α → Bool} (l : List α)
    (h : l.all (fun a => !p a) = true) : l.dropWhile p = l := by
  cases l with
  | nil => rfl
  | cons a t =>
    simp only [List.all_cons, Bool.and_eq_true, Bool.not_eq_true'] at h
    simp [List.dropWhile_cons, h.1]

theorem string_append_ne_of_ne (a : String) {b c : String} (h : b ≠ c) :
    a ++ b ≠ a ++ c := by
  intro he
  apply h
  have hd : (a ++ b).data = (a ++ c).data := congrArg String.data he
  rw [String.data_append, String.data_append] at hd
  exact String.ext (List.append_cancel_left hd)

/-- C1: for every run whose filtered URL list is non-empty, the exit code is
1 exactly when some outcome record has status Failure, and 0 exactly when no
outcome record has status Failure. -/
theorem c1_exit_code (cfg : Config) (st0 : FsState) (inputs : List (String × UrlEnv))
    (h : inputs.filter (fun p => !((pyStripList p.1.data) = [])) ≠ []) :
    ((main_run cfg st0 inputs).2 = 1 ↔
      ∃ r ∈ (main_run cfg st0 inputs).1, r.status = "Failure") ∧
    ((main_run cfg st0 inputs).2 = 0 ↔
      ∀ r ∈ (main_run cfg st0 inputs).1, r.status ≠ "Failure") := by
  rcases hf : inputs.filter (fun p => !((pyStripList p.1.data) = [])) with _ | ⟨u, rest⟩
  · exact absurd hf h
  · have hm : main_run cfg st0 inputs =
        (process_urls cfg st0 (u :: rest),
          if (process_urls cfg st0 (u :: rest)).any
              (fun r => decide (r.status = "Failure")) = true then 1 else 0) := by
      unfold main_run
      rw [hf]
    rw [hm]
    by_cases ha : (process_urls cfg st0 (u :: rest)).any
        (fun r => decide (r.status = "Failure")) = true
    · rw [if_pos ha]
      rw [List.any_eq_true] at ha
      obtain ⟨r, hr, hs⟩ := ha
      refine ⟨⟨fun _ => ⟨r, hr, of_decide_eq_true hs⟩, fun _ => rfl⟩, ?_, ?_⟩
      · intro h10
        exact absurd h10 one_ne_zero
      · intro hall
        exact absurd (of_decide_eq_true hs) (hall r hr)
    · rw [if_neg ha]
      rw [Bool.not_eq_true] at ha
      have hnone : ∀ r ∈ process_urls cfg st0 (u :: rest), r.status ≠ "Failure" := by
        intro r hr hs
        have hany : (process_urls cfg st0 (u :: rest)).any
            (fun r => decide (r.status = "Failure")) = true :=
          List.any_eq_true.mpr ⟨r, hr, decide_eq_true hs⟩
        rw [ha] at hany
        exact Bool.false_ne_true hany
      refine ⟨⟨fun h01 => absurd h01 zero_ne_one, ?_⟩, fun _ => hnone, fun _ => rfl⟩
      intro hex
      obtain ⟨r, hr, hs⟩ := hex
      exact absurd hs (hnone r hr)

theorem c1_exit_code_witness :
    (main_run cfgOff ⟨[]⟩ [("https://github.com/acme/widget", urlEnvOk)]).2 = 0 := by
  have h := c1_exit_code cfgOff ⟨[]⟩ [("https://github.com/acme/widget", urlEnvOk)] (by decide)
  exact h.2.mpr (by decide)

/-- C2: ecosystem detection is a total function of the directory contents and
follows the fixed priority chain Cargo.toml, then the scripting markers, then
package.json, then Dockerfile, then the shallow Python-walk fallback, then
Unknown; in particular a compiled-systems marker beats a coexisting
scripting marker. -/
theorem c2_detect_priority (d : RepoDirEnv) :
    (d.hasCargoToml = true → detect_repo_type d = "Rust") ∧
    (d.hasCargoToml = false →
      (d.hasPyprojectToml || d.hasRequirementsTxt || d.hasSetupPy) = true →
      detect_repo_type d = "Python") ∧
    (d.hasCargoToml = false →
      (d.hasPyprojectToml || d.hasRequirementsTxt || d.hasSetupPy) = false →
      d.hasPackageJson = true → detect_repo_type d = "Node.js") ∧
    (d.hasCargoToml = false →
      (d.hasPyprojectToml || d.hasRequirementsTxt || d.hasSetupPy) = false →
      d.hasPackageJson = false → d.hasDockerfile = true →
      detect_repo_type d = "Docker") ∧
    (d.hasCargoToml = false →
      (d.hasPyprojectToml || d.hasRequirementsTxt || d.hasSetupPy) = false →
      d.hasPackageJson = false → d.hasDockerfile = false →
      d.looksLikePython = true → detect_repo_type d = "Python") ∧
    (d.hasCargoToml = false →
      (d.hasPyprojectToml || d.hasRequirementsTxt || d.hasSetupPy) = false →
      d.hasPackageJson = false → d.hasDockerfile = false →
      d.looksLikePython = false → detect_repo_type d = "Unknown") ∧
    (d.hasCargoToml = true →
      (d.hasPyprojectToml || d.hasRequirementsTxt || d.hasSetupPy) = true →
      detect_repo_type d = "Rust") := by
  obtain ⟨b1, b2, b3, b4, b5, b6, b7⟩ := d
  refine ⟨?_, ?_, ?_, ?_, ?_, ?_, ?_⟩ <;>
    (cases b1 <;> cases b2 <;> cases b3 <;> cases b4 <;> cases b5 <;> cases b6 <;>
      cases b7 <;> decide)

theorem c2_detect_priority_witness :
    detect_repo_type
      { hasCargoToml := true, hasPyprojectToml := false, hasRequirementsTxt := true,
        hasSetupPy := false, hasPackageJson := false, hasDockerfile := false,
        looksLikePython := false } = "Rust" :=
  (c2_detect_priority _).1 rfl

/-- C5: with git available and an existing checkout, clone/update runs only
the fast-forward-only pull and succeeds exactly when that pull exits zero;
no command mentioning `git clone` is ever issued for an existing checkout,
and a fresh clone (with `--depth 1` exactly in shallow mode) is issued only
when no checkout exists. -/
theorem c5_existing_checkout (shallow : Bool) (url dest pullOut cloneOut : String)
    (pullExit cloneExit : Int) :
    (∀ gitOnPath : Bool,
      (git_clone_or_update gitOnPath true shallow url dest pullExit pullOut
        cloneExit cloneOut).2.1.all
          (fun c => !(isSubOf "git clone".data c.data)) = true) ∧
    (git_clone_or_update true true shallow url dest pullExit pullOut
      cloneExit cloneOut).2.1 = ["git pull --ff-only"] ∧
    (git_clone_or_update true true shallow url dest pullExit pullOut
      cloneExit cloneOut).1 = (pullExit == 0) ∧
    (git_clone_or_update true false shallow url dest pullExit pullOut
      cloneExit cloneOut).2.1 = [cloneCmd shallow url dest] := by
  refine ⟨?_, ?_, ?_, ?_⟩
  · intro g
    cases g <;> unfold git_clone_or_update <;>
      by_cases hp : pullExit = 0 <;> simp [hp] <;> decide
  · unfold git_clone_or_update
    by_cases hp : pullExit = 0 <;> simp [hp]
  · unfold git_clone_or_update
    by_cases hp : pullExit = 0 <;> simp [hp, beq_iff_eq]
  · unfold git_clone_or_update
    by_cases hc : cloneExit = 0 <;> simp [hc]

theorem c8_counterexample :
    (rust_build rustEnvCex).1 = false ∧
    (rust_build rustEnvCex).2.2.1 = some "error: preferred build failed" ∧
    (rust_build rustEnvCex).2.2.1 ≠ some (pyTail 4000 rustEnvCex.buildOut) := by
  decide

/-- C8 amended: when both build commands fail, the diagnostic is the
truncated tail of the fallback command's output whenever that output is
non-empty (discarding the preferred command's text); when the fallback
produced no output at all, the preferred command's output tail is kept
instead. -/
theorem c8_fallback_diagnostic (e : RustBuildEnv) (h1 : e.cargoOnPath = true)
    (h2 : e.componentExit ≠ 0) (h3 : e.buildExit ≠ 0) :
    (rust_build e).1 = false ∧
    (e.buildOut ≠ "" → (rust_build e).2.2.1 = some (pyTail 4000 e.buildOut)) ∧
    (e.buildOut = "" → (rust_build e).2.2.1 = some (pyTail 4000 e.componentOut)) := by
  unfold rust_build pyOrStr
  by_cases hb : e.buildOut = "" <;> simp [h1, h2, h3, hb]

theorem c8_fallback_diagnostic_witness :
    (rust_build rustEnvW).2.2.1 = some (pyTail 4000 "second error") :=
  (c8_fallback_diagnostic rustEnvW (by decide) (by decide) (by decide)).2.1 (by decide)

/-- C9: when any configured skip substring occurs in the URL, the outcome
record is Skipped with no executed commands and no error, the filesystem
state is unchanged, and the result is independent of the whole external
environment (no git command or CI API call contributes to it). -/
theorem c9_skip_filter (cfg : Config) (st : FsState) (url : String) (env : UrlEnv)
    (h : cfg.skip.any (fun s => isSubOf s.data url.data) = true) :
    (process_url cfg st url env).1.status = "Skipped" ∧
    (process_url cfg st url env).1.build_commands = [] ∧
    (process_url cfg st url env).1.error = none ∧
    (process_url cfg st url env).2 = st ∧
    ∀ env2 : UrlEnv, process_url cfg st url env2 = process_url cfg st url env := by
  unfold process_url
  simp [h]

theorem c9_skip_filter_witness :
    (process_url cfgSkip ⟨[]⟩ "https://github.com/acme/widget.git" urlEnvOk).1.status
      = "Skipped" :=
  (c9_skip_filter cfgSkip ⟨[]⟩ "https://github.com/acme/widget.git" urlEnvOk (by decide)).1

/-- C7: when venv creation and the pip tooling upgrade succeed, a
requirements.txt that pins `numpy==1.23.*` under an interpreter of version
at least 3.12 makes the scripting build fail with the actionable
compatibility message as its error, having executed only the tooling-upgrade
command — never the `pip install -r requirements.txt` command. -/
theorem c7_numpy_preflight (e : PyBuildEnv)
    (hp : e.pythonAvailable = true) (hv : e.venvOk = true)
    (hu : e.pipUpgradeExit = 0) (hr : e.hasRequirements = true)
    (hver : pyVerGe312 e.pyVer = true)
    (hpin : (splitOnChar '\n' e.requirementsTxt.data).any matchNumpyPin = true) :
    (python_build e).1 = false ∧
    (python_build e).2.2.1 = some (compatMessage e.pyVer) ∧
    (python_build e).2.1 = [e.vpy ++ " -m pip install -U pip setuptools wheel"] ∧
    ¬ (e.vpy ++ " -m pip install -r requirements.txt") ∈ (python_build e).2.1 := by
  have hpre : preflight_requirements_compat true e.requirementsTxt e.pyVer
      = some (compatMessage e.pyVer) := by
    unfold preflight_requirements_compat
    rw [hver, hpin]
    rfl
  have hb : python_build e =
      (false, [e.vpy ++ " -m pip install -U pip setuptools wheel"],
        some (compatMessage e.pyVer), e.guessedEntry,
        pythonNotes ++ ["Compatibility: " ++ compatMessage e.pyVer]) := by
    unfold python_build
    rw [hp, hv, hu, hr, hpre]
    rfl
  rw [hb]
  refine ⟨rfl, rfl, rfl, ?_⟩
  intro hmem
  rcases List.mem_singleton.mp hmem with heq
  exact string_append_ne_of_ne e.vpy (by decide) heq

theorem detect_repo_type_ne_gate (d : RepoDirEnv) : detect_repo_type d ≠ "CI Gate" := by
  unfold detect_repo_type
  split_ifs <;> decide

theorem process_url_clone_detected (cfg : Config) (st : FsState) (url : String)
    (env : UrlEnv) (name dest : String) (ciNotes : List String) :
    (process_url_clone cfg st url env name dest ciNotes).1.detected = "Unknown" ∨
    (process_url_clone cfg st url env name dest ciNotes).1.detected
      = detect_repo_type env.dir := by
  unfold process_url_clone
  dsimp only []
  cases hok : (git_clone_or_update env.gitOnPath (st.checkouts.contains dest) cfg.shallow
      url dest env.pullExit env.pullOut env.cloneExit env.cloneOut).1 with
  | false => simp
  | true => cases hnb : cfg.noBuild <;> simp

theorem process_url_rejected (cfg : Config) (st : FsState) (url : String) (env : UrlEnv)
    (hskip : cfg.skip.any (fun s => isSubOf s.data url.data) = false)
    (hrej : (gate_decision cfg env.api url).rejected = true) :
    process_url cfg st url env =
      ({ name := parse_repo_name url, url := url,
         dest := cfg.orchDir ++ "/" ++ parse_repo_name url, detected := "CI Gate",
         build_commands := [], status := "Failure",
         error := (gate_decision cfg env.api url).note, entrypoint := none,
         integration_notes := (gate_decision cfg env.api url).ciNotes }, st) := by
  unfold process_url
  rw [hskip]
  simp [hrej]

theorem process_url_proceed (cfg : Config) (st : FsState) (url : String) (env : UrlEnv)
    (hskip : cfg.skip.any (fun s => isSubOf s.data url.data) = false)
    (hrej : (gate_decision cfg env.api url).rejected = false) :
    process_url cfg st url env =
      process_url_clone cfg st url env (parse_repo_name url)
        (cfg.orchDir ++ "/" ++ parse_repo_name url)
        (gate_decision cfg env.api url).ciNotes := by
  unfold process_url
  rw [hskip]
  simp [hrej]

theorem gate_decision_auto (cfg : Config) (env : UrlEnv) (url : String)
    (owner repo : String) (hmode : cfg.ciGate = "auto")
    (hgh : parse_github_owner_repo url = some (owner, repo)) :
    (gate_decision cfg env.api url).rejected =
      ((github_ci_gate env.api cfg.ciWorkflow cfg.ciBranch).2.2 &&
        !(github_ci_gate env.api cfg.ciWorkflow cfg.ciBranch).1) := by
  unfold gate_decision
  rw [hmode, hgh]
  simp

theorem github_ci_gate_ok (api : GitHubApiEnv) (workflow branch : String)
    (hwf : api.wfStatus = 200) (hruns : api.runsStatus = 200) :
    (github_ci_gate api workflow branch).2.2 = true ∧
    (github_ci_gate api workflow branch).1 = latestRunSuccess api.runs := by
  unfold github_ci_gate
  rw [hwf, hruns]
  cases hr : api.runs with
  | nil => simp [latestRunSuccess]
  | cons latest rest =>
    by_cases hs : pyLower latest.status = "completed" <;>
      by_cases hc : pyLower latest.conclusion = "success" <;>
        simp [latestRunSuccess, hs, hc]

theorem github_ci_gate_missing (api : GitHubApiEnv) (workflow branch : String)
    (hwf : api.wfStatus = 404) :
    (github_ci_gate api workflow branch).2.2 = false ∧
    (github_ci_gate api workflow branch).1 = false := by
  unfold github_ci_gate
  rw [hwf]
  simp

theorem github_ci_gate_netfail (api : GitHubApiEnv) (workflow branch : String)
    (hwf : api.wfStatus = 0) :
    (github_ci_gate api workflow branch).2.2 = true ∧
    (github_ci_gate api workflow branch).1 = false := by
  unfold github_ci_gate
  rw [hwf]
  simp

theorem github_ci_gate_wf_apierr (api : GitHubApiEnv) (workflow branch : String)
    (h404 : api.wfStatus ≠ 404) (h400 : api.wfStatus ≥ 400) :
    (github_ci_gate api workflow branch).2.2 = true ∧
    (github_ci_gate api workflow branch).1 = false := by
  unfold github_ci_gate
  rw [if_neg h404, if_neg (show ¬ api.wfStatus = 0 by omega), if_pos h400]
  exact ⟨rfl, rfl⟩

theorem github_ci_gate_runs_err (api : GitHubApiEnv) (workflow branch : String)
    (h404 : api.wfStatus ≠ 404) (h0 : api.wfStatus ≠ 0) (hlt : ¬ api.wfStatus ≥ 400)
    (hruns : api.runsStatus = 0 ∨ api.runsStatus ≥ 400) :
    (github_ci_gate api workflow branch).2.2 = true ∧
    (github_ci_gate api workflow branch).1 = false := by
  unfold github_ci_gate
  rw [if_neg h404, if_neg h0, if_neg hlt]
  rcases hruns with h | h
  · rw [if_pos h]
    exact ⟨rfl, rfl⟩
  · rw [if_neg (show ¬ api.runsStatus = 0 by omega), if_pos h]
    exact ⟨rfl, rfl⟩

/-- C6: with the gate in auto mode and a GitHub URL, and no API error, the
URL is gate-rejected exactly when the latest run of the (existing) workflow
is not a completed success; any gate rejection yields a Failure record with
no executed commands and an unchanged filesystem (no clone or build); a 404
on the workflow (workflow absent) never gate-rejects; and every network or
API error during the gate check gate-rejects — a raised network error on
the workflow call, an HTTP error status (other than the 404 meaning
absence) on the workflow call, and a raised error or HTTP error status on
the runs call. -/
theorem c6_auto_gate (cfg : Config) (st : FsState) (url : String) (env : UrlEnv)
    (owner repo : String) (hmode : cfg.ciGate = "auto")
    (hskip : cfg.skip.any (fun s => isSubOf s.data url.data) = false)
    (hgh : parse_github_owner_repo url = some (owner, repo)) :
    (env.api.wfStatus = 200 → env.api.runsStatus = 200 →
      ((process_url cfg st url env).1.detected = "CI Gate" ↔
        latestRunSuccess env.api.runs = false)) ∧
    ((process_url cfg st url env).1.detected = "CI Gate" →
      (process_url cfg st url env).1.status = "Failure" ∧
      (process_url cfg st url env).1.build_commands = [] ∧
      (process_url cfg st url env).2 = st) ∧
    (env.api.wfStatus = 404 → (process_url cfg st url env).1.detected ≠ "CI Gate") ∧
    (env.api.wfStatus = 0 → (process_url cfg st url env).1.detected = "CI Gate") ∧
    (env.api.wfStatus ≠ 404 → env.api.wfStatus ≥ 400 →
      (process_url cfg st url env).1.detected = "CI Gate") ∧
    (env.api.wfStatus ≠ 404 → env.api.wfStatus ≠ 0 → ¬ env.api.wfStatus ≥ 400 →
      env.api.runsStatus = 0 ∨ env.api.runsStatus ≥ 400 →
      (process_url cfg st url env).1.detected = "CI Gate") := by
  have hrejeq := gate_decision_auto cfg env url owner repo hmode hgh
  refine ⟨?_, ?_, ?_, ?_, ?_, ?_⟩
  · intro hwf hruns
    have hg := github_ci_gate_ok env.api cfg.ciWorkflow cfg.ciBranch hwf hruns
    cases hls : latestRunSuccess env.api.runs with
    | false =>
      have hrej : (gate_decision cfg env.api url).rejected = true := by
        rw [hrejeq, hg.1, hg.2, hls]
        rfl
      rw [process_url_rejected cfg st url env hskip hrej]
      simp
    | true =>
      have hrej : (gate_decision cfg env.api url).rejected = false := by
        rw [hrejeq, hg.1, hg.2, hls]
        rfl
      rw [process_url_proceed cfg st url env hskip hrej]
      constructor
      · intro hdet
        rcases process_url_clone_detected cfg st url env (parse_repo_name url)
            (cfg.orchDir ++ "/" ++ parse_repo_name url)
            (gate_decision cfg env.api url).ciNotes with hu | hd
        · rw [hdet] at hu
          exact absurd hu (by decide)
        · rw [hdet] at hd
          exact absurd hd.symm (detect_repo_type_ne_gate env.dir)
      · intro hcontra
        exact absurd hcontra (by decide)
  · intro hdet
    cases hrej : (gate_decision cfg env.api url).rejected with
    | true =>
      rw [process_url_rejected cfg st url env hskip hrej]
      exact ⟨rfl, rfl, rfl⟩
    | false =>
      rw [process_url_proceed cfg st url env hskip hrej] at hdet
      rcases process_url_clone_detected cfg st url env (parse_repo_name url)
          (cfg.orchDir ++ "/" ++ parse_repo_name url)
          (gate_decision cfg env.api url).ciNotes with hu | hd
      · rw [hdet] at hu
        exact absurd hu (by decide)
      · rw [hdet] at hd
        exact absurd hd.symm (detect_repo_type_ne_gate env.dir)
  · intro hwf
    have hg := github_ci_gate_missing env.api cfg.ciWorkflow cfg.ciBranch hwf
    have hrej : (gate_decision cfg env.api url).rejected = false := by
      rw [hrejeq, hg.1]
      rfl
    rw [process_url_proceed cfg st url env hskip hrej]
    intro hdet
    rcases process_url_clone_detected cfg st url env (parse_repo_name url)
        (cfg.orchDir ++ "/" ++ parse_repo_name url)
        (gate_decision cfg env.api url).ciNotes with hu | hd
    · rw [hdet] at hu
      exact absurd hu (by decide)
    · rw [hdet] at hd
      exact absurd hd.symm (detect_repo_type_ne_gate env.dir)
  · intro hwf
    have hg := github_ci_gate_netfail env.api cfg.ciWorkflow cfg.ciBranch hwf
    have hrej : (gate_decision cfg env.api url).rejected = true := by
      rw [hrejeq, hg.1, hg.2]
      rfl
    rw [process_url_rejected cfg st url env hskip hrej]
  · intro h404 h400
    have hg := github_ci_gate_wf_apierr env.api cfg.ciWorkflow cfg.ciBranch h404 h400
    have hrej : (gate_decision cfg env.api url).rejected = true := by
      rw [hrejeq, hg.1, hg.2]
      rfl
    rw [process_url_rejected cfg st url env hskip hrej]
  · intro h404 h0 hlt hre
    have hg := github_ci_gate_runs_err env.api cfg.ciWorkflow cfg.ciBranch h404 h0 hlt hre
    have hrej : (gate_decision cfg env.api url).rejected = true := by
      rw [hrejeq, hg.1, hg.2]
      rfl
    rw [process_url_rejected cfg st url env hskip hrej]

theorem c6_auto_gate_witness :
    (process_url cfgAuto ⟨[]⟩ "https://github.com/acme/widget" urlEnvFailingRun).1.detected
      = "CI Gate" :=
  ((c6_auto_gate cfgAuto ⟨[]⟩ "https://github.com/acme/widget" urlEnvFailingRun
      "acme" "widget" (by decide) (by decide) (by decide)).1 rfl rfl).mpr rfl

theorem c7_numpy_preflight_witness :
    (python_build pyEnvPinned).1 = false ∧
    (python_build pyEnvPinned).2.2.1 = some (compatMessage (3, 12)) :=
  ⟨(c7_numpy_preflight pyEnvPinned (by decide) (by decide) (by decide) (by decide)
      (by decide) (by decide)).1,
   (c7_numpy_preflight pyEnvPinned (by decide) (by decide) (by decide) (by decide)
      (by decide) (by decide)).2.1⟩

/-- C10: the destination directory derives only from the URL's short name, so
two distinct URLs (same repository name under different owners) map to the
same destination, and in a single run the second URL is processed as a
fast-forward update of the first URL's fresh checkout: the first record's
commands are exactly the fresh clone, the second record's commands are
exactly `git pull --ff-only`. -/
theorem c10_name_collision :
    ("https://github.com/alice/widget" : String) ≠ "https://github.com/bob/widget" ∧
    parse_repo_name "https://github.com/alice/widget"
      = parse_repo_name "https://github.com/bob/widget" ∧
    (process_urls cfgOff ⟨[]⟩
      [("https://github.com/alice/widget", urlEnvOk),
       ("https://github.com/bob/widget", urlEnvOk)]).map (fun r => r.dest)
      = ["../orch_repos/widget", "../orch_repos/widget"] ∧
    (process_urls cfgOff ⟨[]⟩
      [("https://github.com/alice/widget", urlEnvOk),
       ("https://github.com/bob/widget", urlEnvOk)]).map (fun r => r.build_commands)
      = [["git clone https://github.com/alice/widget ../orch_repos/widget"],
         ["git pull --ff-only"]] := by
  refine ⟨by decide, by decide, ?_, ?_⟩ <;> decide

theorem safe_not_ws {c : Char} (h : isSafeChar c = true) : isPyWsChar c = false := by
  by_contra hw
  rw [Bool.not_eq_false] at hw
  unfold isPyWsChar at hw
  simp only [Bool.or_eq_true, decide_eq_true_eq] at hw
  rcases hw with ((((h1 | h1) | h1) | h1) | h1) | h1 <;> subst h1 <;>
    exact absurd h (by decide)

theorem safe_ne_slash {c : Char} (h : isSafeChar c = true) : c ≠ '/' := by
  intro he
  subst he
  exact absurd h (by decide)

theorem subChars_all_safe (l : List Char) : ∀ b, (subChars l b).all isSafeChar = true := by
  induction l with
  | nil => intro b; rfl
  | cons c cs ih =>
    intro b
    unfold subChars
    by_cases hc : isSafeChar c = true
    · rw [if_pos hc]
      simp [List.all_cons, hc, ih false]
    · rw [if_neg hc]
      cases b with
      | true => simpa using ih true
      | false =>
        simp only [Bool.false_eq_true, if_false, List.all_cons, Bool.and_eq_true]
        exact ⟨by decide, ih true⟩

theorem subChars_eq_self {l : List Char} (h : l.all isSafeChar = true) :
    subChars l false = l := by
  induction l with
  | nil => rfl
  | cons c cs ih =>
    simp only [List.all_cons, Bool.and_eq_true] at h
    unfold subChars
    rw [if_pos h.1, ih h.2]

theorem pyStripList_eq_self {l : List Char}
    (h : l.all (fun c => !isPyWsChar c) = true) : pyStripList l = l := by
  unfold pyStripList
  rw [dropWhile_eq_self_of_all l h,
    dropWhile_eq_self_of_all l.reverse (by rw [List.all_reverse]; exact h),
    List.reverse_reverse]

theorem rstripSlash_eq_self {l : List Char}
    (h : l.all (fun c => !(decide (c = '/'))) = true) : rstripSlash l = l := by
  unfold rstripSlash
  rw [dropWhile_eq_self_of_all l.reverse (by rw [List.all_reverse]; exact h),
    List.reverse_reverse]

theorem splitOnChar_eq_single {sep : Char} {l : List Char}
    (h : l.all (fun c => !(decide (c = sep))) = true) : splitOnChar sep l = [l] := by
  induction l with
  | nil => rfl
  | cons c cs ih =>
    simp only [List.all_cons, Bool.and_eq_true, Bool.not_eq_true'] at h
    unfold splitOnChar
    rw [ih h.2]
    simp only []
    rw [if_neg (of_decide_eq_false h.1)]

theorem stripGitSuffix_eq_self {l : List Char}
    (h : (".git".data).isSuffixOf l = false) : stripGitSuffix l = l := by
  unfold stripGitSuffix
  rw [h]
  simp

theorem parse_repo_name_safe (url : String) :
    (parse_repo_name url).data ≠ [] ∧
    (parse_repo_name url).data.all isSafeChar = true := by
  show parse_repo_name_list url.data ≠ [] ∧
    (parse_repo_name_list url.data).all isSafeChar = true
  unfold parse_repo_name_list
  dsimp only []
  by_cases h : subChars (stripGitSuffix
      ((splitOnChar '/' (rstripSlash (pyStripList url.data))).getLastD [])) false = []
  · rw [if_pos h]
    exact ⟨by decide, by decide⟩
  · rw [if_neg h]
    exact ⟨h, subChars_all_safe _ false⟩

/-- C4 counterexample: name derivation is not idempotent — the input
`widget.git.git` derives `widget.git`, whose own derivation is `widget`. -/
theorem c4_counterexample :
    parse_repo_name "widget.git.git" = "widget.git" ∧
    parse_repo_name (parse_repo_name "widget.git.git")
      ≠ parse_repo_name "widget.git.git" := by
  constructor
  · decide
  · decide

/-- C4 amended: name derivation always yields a non-empty string over
`[A-Za-z0-9._-]`, and applying the derivation to its own output returns the
output unchanged whenever that output does not itself end in `.git` (an
output ending in `.git` — from an input ending in `.git.git` — gets the
suffix stripped again); the example `widget` from the example URL holds. -/
theorem c4_amended (url : String) :
    (parse_repo_name url).data ≠ [] ∧
    (parse_repo_name url).data.all isSafeChar = true ∧
    ((".git".data).isSuffixOf (parse_repo_name url).data = false →
      parse_repo_name (parse_repo_name url) = parse_repo_name url) := by
  obtain ⟨hne, hsafe⟩ := parse_repo_name_safe url
  refine ⟨hne, hsafe, ?_⟩
  intro hsuf
  apply String.ext
  rw [show ∀ s : String, (parse_repo_name s).data = parse_repo_name_list s.data
    from fun s => rfl]
  have hnotws : (parse_repo_name url).data.all (fun c => !isPyWsChar c) = true := by
    rw [List.all_eq_true]
    intro x hx
    rw [safe_not_ws ((List.all_eq_true.mp hsafe) x hx)]
    rfl
  have hnotslash : (parse_repo_name url).data.all (fun c => !(decide (c = '/'))) = true := by
    rw [List.all_eq_true]
    intro x hx
    rw [decide_eq_false (safe_ne_slash ((List.all_eq_true.mp hsafe) x hx))]
    rfl
  unfold parse_repo_name_list
  dsimp only []
  rw [pyStripList_eq_self hnotws, rstripSlash_eq_self hnotslash,
    splitOnChar_eq_single hnotslash]
  rw [show List.getLastD [(parse_repo_name url).data] [] = (parse_repo_name url).data
    from rfl]
  rw [stripGitSuffix_eq_self hsuf, subChars_eq_self hsafe, if_neg hne]

theorem c4_amended_witness :
    parse_repo_name "https://github.com/acme/widget.git" = "widget" ∧
    parse_repo_name (parse_repo_name "https://github.com/acme/widget.git")
      = parse_repo_name "https://github.com/acme/widget.git" :=
  ⟨by decide, (c4_amended "https://github.com/acme/widget.git").2.2 (by decide)⟩

theorem urlSpecial_decomp {c : Char} (h : (!urlSpecialChar c) = true) :
    c ≠ '/' ∧ c ≠ '?' ∧ c ≠ '#' ∧ c ≠ ':' ∧ c ≠ ';' ∧ isPyWsChar c = false := by
  rw [Bool.not_eq_true'] at h
  unfold urlSpecialChar at h
  simp only [Bool.or_eq_false_iff, decide_eq_false_iff_not] at h
  exact ⟨h.1.1.1.1.1, h.1.1.1.1.2, h.1.1.1.2, h.1.1.2, h.1.2, h.2⟩

theorem all_imp {l : List Char} {p q : Char → Bool} (h : l.all p = true)
    (himp : ∀ c, p c = true → q c = true) : l.all q = true := by
  rw [List.all_eq_true] at h ⊢
  exact fun c hc => himp c (h c hc)

theorem any_eq_false_of_all_not {l : List Char} {p : Char → Bool}
    (h : l.all (fun c => !p c) = true) : l.any p = false := by
  rw [Bool.eq_false_iff]
  intro hany
  obtain ⟨x, hx, hpx⟩ := List.any_eq_true.mp hany
  have hnx := List.all_eq_true.mp h x hx
  rw [hpx] at hnx
  exact absurd hnx (by decide)

theorem splitOnChar_ne_nil (sep : Char) (l : List Char) : splitOnChar sep l ≠ [] := by
  induction l with
  | nil => simp [splitOnChar]
  | cons c cs ih =>
    unfold splitOnChar
    rcases hs : splitOnChar sep cs with _ | ⟨h, t⟩
    · exact absurd hs ih
    · by_cases hcs : c = sep <;> simp [hcs]

theorem splitOnChar_append {sep : Char} {xs : List Char} (ys : List Char)
    (h : xs.all (fun c => !(decide (c = sep))) = true) :
    splitOnChar sep (xs ++ sep :: ys) = xs :: splitOnChar sep ys := by
  induction xs with
  | nil =>
    rcases hsp : splitOnChar sep ys with _ | ⟨h0, t0⟩
    · exact absurd hsp (splitOnChar_ne_nil sep ys)
    · show splitOnChar sep (sep :: ys) = [] :: h0 :: t0
      unfold splitOnChar
      rw [hsp]
      simp
  | cons c xs ih =>
    simp only [List.all_cons, Bool.and_eq_true] at h
    show splitOnChar sep (c :: (xs ++ sep :: ys)) = (c :: xs) :: splitOnChar sep ys
    have h1 : decide (c = sep) = false := by
      have h2 := h.1
      rwa [Bool.not_eq_true'] at h2
    unfold splitOnChar
    rw [ih h.2]
    simp only []
    rw [if_neg (of_decide_eq_false h1)]
    congr 1
    cases ys <;> rfl

theorem pyUrlsplit_github (t : List Char)
    (hfilter : t.all (fun c => !(c = '\t' || c = '\r' || c = '\n')) = true)
    (hfrag : t.all (fun c => !(c = '#')) = true)
    (hquery : t.all (fun c => !(c = '?')) = true) :
    pyUrlsplit ("https://github.com/".data ++ t) =
      { scheme := "https".data, netloc := "github.com".data, path := '/' :: t } := by
  have hfilterEq : ("https://github.com/".data ++ t).filter
      (fun c => !(c = '\t' || c = '\r' || c = '\n')) = "https://github.com/".data ++ t := by
    rw [List.filter_append]
    rw [show ("https://github.com/".data.filter
      (fun c => !(c = '\t' || c = '\r' || c = '\n'))) = "https://github.com/".data from rfl]
    rw [List.filter_eq_self.mpr (List.all_eq_true.mp hfilter)]
  have hshape : ("https://github.com/".data : List Char) ++ t
      = "https".data ++ (':' :: ("//github.com/".data ++ t)) := rfl
  have hpre : ("https://github.com/".data ++ t).takeWhile (fun c => !(c = ':'))
      = "https".data := by
    rw [hshape, takeWhile_append_of_all _ _ (by decide), List.takeWhile_cons]
    rw [if_neg (by decide)]
    rw [List.append_nil]
  have hlen : ("https".data : List Char).length <
      (("https://github.com/".data : List Char) ++ t).length := by
    rw [List.length_append]
    show 5 < 19 + t.length
    omega
  have hdrop : (("https://github.com/".data : List Char) ++ t).drop
      (("https".data : List Char).length + 1) = "//github.com/".data ++ t := by
    rw [List.drop_append_of_le_length (by decide)]
    rfl
  have hshape2 : ("//github.com/".data : List Char) ++ t
      = '/' :: '/' :: ("github.com/".data ++ t) := rfl
  have hnet : (("github.com/".data : List Char) ++ t).takeWhile
      (fun c => !(c = '/' || c = '?' || c = '#')) = "github.com".data := by
    rw [show ("github.com/".data : List Char) ++ t
      = "github.com".data ++ ('/' :: t) from rfl]
    rw [takeWhile_append_of_all _ _ (by decide), List.takeWhile_cons]
    rw [if_neg (by decide)]
    rw [List.append_nil]
  have hrest2 : (("github.com/".data : List Char) ++ t).dropWhile
      (fun c => !(c = '/' || c = '?' || c = '#')) = '/' :: t := by
    rw [show ("github.com/".data : List Char) ++ t
      = "github.com".data ++ ('/' :: t) from rfl]
    rw [dropWhile_append_of_all _ _ (by decide), List.dropWhile_cons]
    rw [if_neg (by decide)]
  have hfrag2 : (('/' :: t).takeWhile (fun c => !(c = '#'))) = '/' :: t := by
    rw [List.takeWhile_cons, if_pos (by decide), takeWhile_eq_self_of_all t hfrag]
  have hquery2 : (('/' :: t).takeWhile (fun c => !(c = '?'))) = '/' :: t := by
    rw [List.takeWhile_cons, if_pos (by decide), takeWhile_eq_self_of_all t hquery]
  have hcond : (decide (("https".data : List Char).length <
      (("https://github.com/".data : List Char) ++ t).length)
        && validSchemeName "https".data) = true := by
    rw [decide_eq_true hlen]
    decide
  unfold pyUrlsplit
  dsimp only []
  rw [hfilterEq, hpre, hcond]
  simp only [eq_self_iff_true, if_true]
  rw [hdrop]
  rw [show (("//github.com/".data : List Char) ++ t).take 2 = ['/', '/'] from rfl]
  rw [if_pos rfl, if_pos rfl]
  rw [show (("//github.com/".data : List Char) ++ t).drop 2
    = "github.com/".data ++ t from rfl]
  rw [hnet, hrest2, hfrag2, hquery2]
  rw [show ("https".data : List Char).map Char.toLower = "https".data from rfl]

theorem dropWhile_reverse_concat {p : Char → Bool} (l : List Char) (y : Char)
    (hy : p y = false) : ((l ++ [y]).reverse.dropWhile p).reverse = l ++ [y] := by
  rw [List.reverse_append]
  simp only [List.reverse_cons, List.reverse_nil, List.nil_append, List.singleton_append]
  rw [List.dropWhile_cons, hy]
  simp

theorem stripChar_sandwich (ch x y : Char) (xs ys : List Char)
    (hx : decide (x = ch) = false) (hy : decide (y = ch) = false) :
    stripChar ch (ch :: ((x :: xs) ++ ch :: (ys ++ [y])))
      = (x :: xs) ++ ch :: (ys ++ [y]) := by
  unfold stripChar
  rw [List.dropWhile_cons, decide_eq_true (rfl : ch = ch)]
  simp only [if_true]
  rw [List.cons_append, List.dropWhile_cons, hx]
  simp only [Bool.false_eq_true, if_false]
  rw [show (x :: (xs ++ ch :: (ys ++ [y]))) = ((x :: xs) ++ ch :: ys) ++ [y] by
    simp [List.append_assoc]]
  exact dropWhile_reverse_concat _ y hy

theorem parse_github_wellformed (o r : String) (ho : validSeg o) (hr : validSeg r) :
    parse_github_owner_repo (mkGithubUrl o r) = some (o, ⟨stripGitSuffix r.data⟩) := by
  obtain ⟨hone, hoall⟩ := ho
  obtain ⟨hrne, hrall⟩ := hr
  have htall : ∀ (p : Char → Bool), p '/' = true →
      (∀ c, (!urlSpecialChar c) = true → p c = true) →
      (o.data ++ '/' :: r.data).all p = true := by
    intro p hs himp
    rw [List.all_append, Bool.and_eq_true]
    refine ⟨all_imp hoall himp, ?_⟩
    rw [List.all_cons, Bool.and_eq_true]
    exact ⟨hs, all_imp hrall himp⟩
  have hfilter : (o.data ++ '/' :: r.data).all
      (fun c => !(c = '\t' || c = '\r' || c = '\n')) = true := by
    refine htall _ (by decide) ?_
    intro c hc
    obtain ⟨-, -, -, -, -, hws⟩ := urlSpecial_decomp hc
    have h1 : decide (c = '\t') = false :=
      decide_eq_false (fun he => by subst he; exact absurd hws (by decide))
    have h2 : decide (c = '\r') = false :=
      decide_eq_false (fun he => by subst he; exact absurd hws (by decide))
    have h3 : decide (c = '\n') = false :=
      decide_eq_false (fun he => by subst he; exact absurd hws (by decide))
    rw [h1, h2, h3]
    rfl
  have hfrag : (o.data ++ '/' :: r.data).all (fun c => !(c = '#')) = true := by
    refine htall _ (by decide) ?_
    intro c hc
    obtain ⟨-, -, h3, -, -, -⟩ := urlSpecial_decomp hc
    rw [decide_eq_false h3]
    rfl
  have hquery : (o.data ++ '/' :: r.data).all (fun c => !(c = '?')) = true := by
    refine htall _ (by decide) ?_
    intro c hc
    obtain ⟨-, h2, -, -, -, -⟩ := urlSpecial_decomp hc
    rw [decide_eq_false h2]
    rfl
  have hws : (o.data ++ '/' :: r.data).all (fun c => !isPyWsChar c) = true := by
    refine htall _ (by decide) ?_
    intro c hc
    obtain ⟨-, -, -, -, -, h5⟩ := urlSpecial_decomp hc
    rw [h5]
    rfl
  have hoslash : o.data.all (fun c => !(decide (c = '/'))) = true := by
    refine all_imp hoall ?_
    intro c hc
    obtain ⟨h1, -, -, -, -, -⟩ := urlSpecial_decomp hc
    rw [decide_eq_false h1]
    rfl
  have hrslash : r.data.all (fun c => !(decide (c = '/'))) = true := by
    refine all_imp hrall ?_
    intro c hc
    obtain ⟨h1, -, -, -, -, -⟩ := urlSpecial_decomp hc
    rw [decide_eq_false h1]
    rfl
  have hurl : (mkGithubUrl o r).data
      = "https://github.com/".data ++ (o.data ++ '/' :: r.data) := by
    simp [mkGithubUrl, String.data_append, List.append_assoc]
  have hstrip : pyStripList (mkGithubUrl o r).data
      = "https://github.com/".data ++ (o.data ++ '/' :: r.data) := by
    rw [hurl]
    apply pyStripList_eq_self
    rw [List.all_append, Bool.and_eq_true]
    exact ⟨by decide, hws⟩
  have hsplit := pyUrlsplit_github (o.data ++ '/' :: r.data) hfilter hfrag hquery
  have hsc : stripChar '/' ('/' :: (o.data ++ '/' :: r.data))
      = o.data ++ '/' :: r.data := by
    rcases hod : o.data with _ | ⟨x, xs⟩
    · exact absurd hod hone
    · rcases List.eq_nil_or_concat r.data with hrd | ⟨ys, y, hrd⟩
      · exact absurd hrd hrne
      · rw [List.concat_eq_append] at hrd
        rw [hrd]
        refine stripChar_sandwich '/' x y xs ys ?_ ?_
        · have hx := List.all_eq_true.mp hoslash x (by rw [hod]; exact List.mem_cons_self x xs)
          rwa [Bool.not_eq_true'] at hx
        · have hy := List.all_eq_true.mp hrslash y
            (by rw [hrd]; exact List.mem_append_right ys (List.mem_singleton.mpr rfl))
          rwa [Bool.not_eq_true'] at hy
  have hsplit2 : splitOnChar '/' (o.data ++ '/' :: r.data) = [o.data, r.data] := by
    rw [splitOnChar_append r.data hoslash, splitOnChar_eq_single hrslash]
  have hsemi : (('/' :: (o.data ++ '/' :: r.data)).contains ';') = false := by
    rw [List.contains_eq_any_beq]
    apply any_eq_false_of_all_not
    rw [List.all_cons, Bool.and_eq_true]
    refine ⟨by decide, ?_⟩
    refine htall _ (by decide) ?_
    intro c hc
    obtain ⟨-, -, -, -, h5, -⟩ := urlSpecial_decomp hc
    rw [beq_eq_false_iff_ne.mpr (Ne.symm h5)]
    rfl
  have hparse : pyUrlparse (pyStripList (mkGithubUrl o r).data)
      = { scheme := "https".data, netloc := "github.com".data,
          path := '/' :: (o.data ++ '/' :: r.data) } := by
    unfold pyUrlparse
    dsimp only []
    rw [hstrip, hsplit]
    dsimp only []
    rw [hsemi, Bool.and_false]
    simp only [Bool.false_eq_true, if_false]
  unfold parse_github_owner_repo
  dsimp only []
  rw [hparse]
  dsimp only []
  rw [show (!(decide (("https".data : List Char) = "http".data)
      || decide (("https".data : List Char) = "https".data))) = false from by decide]
  rw [show (!(decide ((List.map Char.toLower ("github.com".data : List Char))
      = ("github.com".data : List Char)))) = false from by decide]
  simp only [Bool.false_eq_true, if_false]
  rw [hsc, hsplit2]
  rw [show ([o.data, r.data].filter (fun p => !(p = [])))
      = [o.data, r.data] from by
    rw [List.filter_cons, List.filter_cons]
    rw [show (!(decide (o.data = []))) = true from by
      rw [decide_eq_false hone]
      rfl]
    rw [show (!(decide (r.data = []))) = true from by
      rw [decide_eq_false hrne]
      rfl]
    simp]

theorem parse_github_none_iff (url : String) :
    parse_github_owner_repo url = none ↔
      (¬ ((pyUrlparse (pyStripList url.data)).scheme = "http".data ∨
          (pyUrlparse (pyStripList url.data)).scheme = "https".data) ∨
       List.map Char.toLower (pyUrlparse (pyStripList url.data)).netloc
         ≠ "github.com".data ∨
       ((splitOnChar '/' (stripChar '/' (pyUrlparse (pyStripList url.data)).path)).filter
          (fun p => !(p = []))).length < 2) := by
  unfold parse_github_owner_repo
  dsimp only []
  by_cases h1 : (pyUrlparse (pyStripList url.data)).scheme = "http".data ∨
      (pyUrlparse (pyStripList url.data)).scheme = "https".data
  · have hb1 : (!(decide ((pyUrlparse (pyStripList url.data)).scheme = "http".data)
        || decide ((pyUrlparse (pyStripList url.data)).scheme = "https".data))) = false := by
      rcases h1 with h | h
      · rw [decide_eq_true h]
        rfl
      · rw [decide_eq_true h, Bool.or_true]
        rfl
    rw [hb1]
    simp only [Bool.false_eq_true, if_false]
    by_cases h2 : List.map Char.toLower (pyUrlparse (pyStripList url.data)).netloc
        = "github.com".data
    · have hb2 : (!(decide (List.map Char.toLower
          (pyUrlparse (pyStripList url.data)).netloc = "github.com".data))) = false := by
        rw [decide_eq_true h2]
        rfl
      rw [hb2]
      simp only [Bool.false_eq_true, if_false]
      rcases hp : (splitOnChar '/'
          (stripChar '/' (pyUrlparse (pyStripList url.data)).path)).filter
            (fun p => !(p = [])) with _ | ⟨a, _ | ⟨b, tl2⟩⟩
      · rw [hp]
        simp [h1, h2]
      · rw [hp]
        simp [h1, h2]
      · rw [hp]
        simp only [List.length_cons]
        constructor
        · intro hcontra
          exact absurd hcontra (by simp)
        · intro hc
          rcases hc with hc | hc | hc
          · exact absurd h1 hc
          · exact absurd h2 hc
          · omega
    · have hb2 : (!(decide (List.map Char.toLower
          (pyUrlparse (pyStripList url.data)).netloc = "github.com".data))) = true := by
        rw [decide_eq_false h2]
        rfl
      rw [hb2]
      simp [h2]
  · have hnot := not_or.mp h1
    have hb1 : (!(decide ((pyUrlparse (pyStripList url.data)).scheme = "http".data)
        || decide ((pyUrlparse (pyStripList url.data)).scheme = "https".data))) = true := by
      rw [decide_eq_false hnot.1, decide_eq_false hnot.2]
      rfl
    rw [hb1]
    simp [h1]

/-- C3 counterexample: `http://github.com/a/b` is not of the
`https://github.com/<owner>/<repo>` shape (its scheme is `http`), yet
owner/repo extraction returns the pair `(a, b)` rather than the
not-applicable result. -/
theorem c3_counterexample :
    parse_github_owner_repo "http://github.com/a/b" = some ("a", "b") ∧
    isHttpsGithubShape "http://github.com/a/b" = false := by
  exact ⟨by decide, by decide⟩

/-- C3 amended: for every well-formed `https://github.com/<owner>/<repo>[.git]`
URL the extraction returns exactly the owner and the repo with a trailing
`.git` stripped; extraction returns the not-applicable result exactly when
the `urlparse`-parsed scheme is neither `http` nor `https`, or the
lowercased host is not `github.com`, or the path — after `urlparse`'s
parameter split, which drops a `;params` suffix from the path's last
segment — has fewer than two non-empty segments.  In particular some URLs
outside the claimed shape (an `http` scheme, or extra path segments) still
yield an owner/repo pair. -/
theorem c3_amended (o r url : String) (ho : validSeg o) (hr : validSeg r) :
    parse_github_owner_repo (mkGithubUrl o r) = some (o, ⟨stripGitSuffix r.data⟩) ∧
    (parse_github_owner_repo url = none ↔
      (¬ ((pyUrlparse (pyStripList url.data)).scheme = "http".data ∨
          (pyUrlparse (pyStripList url.data)).scheme = "https".data) ∨
       List.map Char.toLower (pyUrlparse (pyStripList url.data)).netloc
         ≠ "github.com".data ∨
       ((splitOnChar '/' (stripChar '/' (pyUrlparse (pyStripList url.data)).path)).filter
          (fun p => !(p = []))).length < 2)) :=
  ⟨parse_github_wellformed o r ho hr, parse_github_none_iff url⟩

theorem c3_amended_witness :
    parse_github_owner_repo (mkGithubUrl "acme" "widget.git") = some ("acme", "widget") ∧
    parse_github_owner_repo "ftp://example.com/x" = none := by
  constructor
  · have h := (c3_amended "acme" "widget.git" "ftp://example.com/x"
      ⟨by decide, by decide⟩ ⟨by decide, by decide⟩).1
    rw [h]
    decide
  · exact (c3_amended "acme" "widget.git" "ftp://example.com/x"
      ⟨by decide, by decide⟩ ⟨by decide, by decide⟩).2.mpr (by decide)

end AutoSetup
